import Mathlib

/-!
Shallow embedding of `src/router/lambda_function.py`, a single-function
event router: it consumes a batch of Kinesis records, base64-decodes each,
parses a doubly JSON-encoded envelope, and dispatches the inner payload
either to two trace collectors (HTTP POST) or to a structured-log sink.

Python values flowing through the router are modelled by an inductive
`Json` type; Python runtime errors (KeyError, TypeError, AttributeError,
binascii.Error) by a `Fault` type; observable side effects (HTTP POSTs,
prints, structured-log writes) by an explicit `Effect` trace.
The Python standard-library JSON parser is modelled as an abstract fallible
function (a field of `Libs`): the router only observes whether it returns a
value or raises, which the bare try/except converts into a skip.
`base64.b64decode` is modelled concretely.
External outcomes (HTTP responses, structured-log sink failures) are
inputs (`Ext`), one per record, so every definition stays executable.
-/

namespace Router

/-- A Python/JSON value as it flows through the router. -/
inductive Json where
  | null
  | bool (b : Bool)
  | num (n : Int)
  | str (s : String)
  | arr (elems : List Json)
  | obj (fields : List (String × Json))

/-- The resource descriptor built in the log path
(`google.cloud.logging.resource.Resource`). -/
structure Resource where
  type : String
  labels : List (String × String)

/-- Observable side effects of one invocation, in program order. -/
inductive Effect where
  | httpPost (url : String) (headers : List (String × String)) (body : List Nat)
  | printStr (s : String)
  | printJson (j : Json)
  | logStruct (payload : Json) (res : Resource)

/-- Python runtime faults that can escape (or be caught by) the router. -/
inductive Fault where
  | keyError (key : String)
  | typeError (msg : String)
  | attributeError (msg : String)
  | binasciiError
  | sinkError (msg : String)
deriving DecidableEq

/-- An HTTP response as observed through `requests.post` (`ok`, `content`). -/
structure Response where
  ok : Bool
  content : String

/-- External outcomes consumed while processing one record: the two HTTP
responses of the trace path and whether the structured-log write raises. -/
structure Ext where
  jaegerResp : Response
  stackdriverResp : Response
  sinkFault : Option String

/-- Environment-derived configuration, read once at process start. -/
structure Env where
  JAEGER_COLLECTOR_URL : String
  STACKDRIVER_COLLECTOR_URL : String
  AWS_REGION : String

/-- The Lambda execution context; only `aws_request_id` is used. -/
structure Context where
  aws_request_id : String

/-- The Python JSON parser, abstract: the router observes only success or
failure. `json_loads_bytes` is `json.loads` applied to the decoded bytes,
`json_loads_str` is `json.loads` applied to the inner `log` string. -/
structure Libs where
  json_loads_bytes : List Nat → Option Json
  json_loads_str : String → Option Json

/-- Models REGION, the string aws: followed by the configured region. -/
def REGION (env : Env) : String := "aws:" ++ env.AWS_REGION

/-- Value of one character in the standard base64 alphabet. -/
def b64Val (c : Char) : Option Nat :=
  if 'A' ≤ c ∧ c ≤ 'Z' then some (c.toNat - 'A'.toNat)
  else if 'a' ≤ c ∧ c ≤ 'z' then some (c.toNat - 'a'.toNat + 26)
  else if '0' ≤ c ∧ c ≤ '9' then some (c.toNat - '0'.toNat + 52)
  else if c = '+' then some 62
  else if c = '/' then some 63
  else none

/-- Base64 decoding of a character list, four characters (one quantum) at a
time; padding is allowed only in the final quantum. Failure models
`binascii.Error`. -/
def b64DecodeChars : List Char → Option (List Nat)
  | [] => some []
  | a :: b :: c :: d :: rest =>
    match b64Val a, b64Val b with
    | some x, some y =>
      if c == '=' then
        if d == '=' && rest.isEmpty then some [x * 4 + y / 16] else none
      else
        match b64Val c with
        | some z =>
          if d == '=' then
            if rest.isEmpty then some [x * 4 + y / 16, y % 16 * 16 + z / 4] else none
          else
            match b64Val d, b64DecodeChars rest with
            | some w, some tl =>
              some ((x * 4 + y / 16) :: (y % 16 * 16 + z / 4) :: (z % 4 * 64 + w) :: tl)
            | _, _ => none
        | none => none
    | _, _ => none
  | _ => none

/-- Structural validity of a base64 character list: complete quanta of
alphabet characters, with one or two padding characters allowed only at
the very end. -/
def b64ValidChars : List Char → Bool
  | [] => true
  | a :: b :: c :: d :: rest =>
    (b64Val a).isSome && (b64Val b).isSome &&
      (if c == '=' then d == '=' && rest.isEmpty
       else (b64Val c).isSome &&
         (if d == '=' then rest.isEmpty
          else (b64Val d).isSome && b64ValidChars rest))
  | _ => false

/-- Python base64.b64decode on a string. -/
def b64decode (s : String) : Option (List Nat) := b64DecodeChars s.data

/-- The record raw data is a (structurally) valid base64 encoding. -/
def isValidB64 (s : String) : Bool := b64ValidChars s.data

/-- Python truthiness test (`if not log:`) on a JSON value. -/
def pyFalsy : Json → Bool
  | .null => true
  | .bool b => !b
  | .num n => n == 0
  | .str s => s == ""
  | .arr xs => xs.isEmpty
  | .obj kvs => kvs.isEmpty

/-- Python `payload.get(key)`: works on dicts, raises AttributeError on
any other value. -/
def pyGet (j : Json) (key : String) : Except Fault (Option Json) :=
  match j with
  | .obj kvs => .ok (kvs.lookup key)
  | _ => .error (Fault.attributeError "object has no attribute get")

/-- Python `container[key]` with a string key: dict lookup (KeyError when
missing); TypeError on strings, lists and every non-subscriptable value. -/
def pySubscript (j : Json) (key : String) : Except Fault Json :=
  match j with
  | .obj kvs =>
    match kvs.lookup key with
    | some v => .ok v
    | none => .error (Fault.keyError key)
  | .str _ => .error (Fault.typeError "string indices must be integers")
  | .arr _ => .error (Fault.typeError "list indices must be integers")
  | _ => .error (Fault.typeError "object is not subscriptable")

/-- Is `needle` a contiguous substring of the character list. -/
def subIn (needle : List Char) : List Char → Bool
  | [] => needle.isEmpty
  | c :: rest => needle.isPrefixOf (c :: rest) || subIn needle rest

/-- Python `key in j`: key membership for dicts, element equality for
lists, substring test for strings, TypeError otherwise. -/
def pyIn (j : Json) (key : String) : Except Fault Bool :=
  match j with
  | .obj kvs => .ok (kvs.any (fun kv => kv.1 == key))
  | .arr xs => .ok (xs.any (fun x => match x with | .str s => s == key | _ => false))
  | .str s => .ok (subIn key.data s.data)
  | _ => .error (Fault.typeError "argument is not iterable")

/-- The headers of both trace POSTs. -/
def thrift_headers : List (String × String) := [("Content-Type", "application/x-thrift")]

/-- The function _process_trace: base64-decode the trace value, POST it to the Jaeger
collector and then to the Stackdriver collector, printing a diagnostic
after each non-ok response. `base64.b64decode` raises TypeError on a
non-string argument and binascii.Error on an invalid encoding. -/
def _process_trace (env : Env) (trace : Json) (ext : Ext) : List Effect × Option Fault :=
  match trace with
  | .str t =>
    match b64decode t with
    | none => ([], some Fault.binasciiError)
    | some data =>
      ((Effect.httpPost env.JAEGER_COLLECTOR_URL thrift_headers data ::
          (if ext.jaegerResp.ok then [] else
            [Effect.printStr ("Failed to POST span to Jaeger: " ++ ext.jaegerResp.content)])) ++
       (Effect.httpPost env.STACKDRIVER_COLLECTOR_URL thrift_headers data ::
          (if ext.stackdriverResp.ok then [] else
            [Effect.printStr ("Failed to POST span to Stackdriver: " ++ ext.stackdriverResp.content)])),
       none)
  | _ => ([], some (Fault.typeError "b64decode expects a string"))

/-- The function _process_log: build the resource descriptor, write the payload to the
structured-log sink (which may raise, modelled by `sinkFault`), then print
the payload. -/
def _process_log (env : Env) (ctx : Context) (log : Json) (sinkFault : Option String) :
    List Effect × Option Fault :=
  let res : Resource :=
    { type := "generic_task",
      labels := [("location", REGION env), ("namespace", "default"),
                 ("job", "router"), ("task_id", ctx.aws_request_id)] }
  match sinkFault with
  | some msg => ([], some (Fault.sinkError msg))
  | none => ([Effect.logStruct log res, Effect.printJson log], none)

/-- The function _process_record: parse the decoded bytes (bare except: any failure
skips the record), fetch `log` (skip when falsy), parse it again (a
non-string argument raises TypeError inside `json.loads`, caught by the
same bare except), then classify on the `trace` key and dispatch. -/
def _process_record (libs : Libs) (env : Env) (ctx : Context) (payload : List Nat)
    (ext : Ext) : List Effect × Option Fault :=
  match libs.json_loads_bytes payload with
  | none => ([], none)
  | some payloadJ =>
    match pyGet payloadJ "log" with
    | .error f => ([], some f)
    | .ok none => ([], none)
    | .ok (some logVal) =>
      if pyFalsy logVal then ([], none)
      else
        match logVal with
        | .str s =>
          match libs.json_loads_str s with
          | none => ([], none)
          | some log =>
            match pyIn log "trace" with
            | .error f => ([], some f)
            | .ok true =>
              match pySubscript log "trace" with
              | .error f => ([], some f)
              | .ok tr => _process_trace env tr ext
            | .ok false => _process_log env ctx log ext.sinkFault
        | _ => ([], none)

/-- The body of the `lambda_handler` loop for one record: extract
the nested kinesis data field of the record, base64-decode it, then call
`_process_record`. The middle component counts `_process_record`
invocations (1 when reached, 0 when extraction or decoding faults). -/
def recordStep (libs : Libs) (env : Env) (ctx : Context) (record : Json) (ext : Ext) :
    List Effect × Nat × Option Fault :=
  match pySubscript record "kinesis" with
  | .error f => ([], 0, some f)
  | .ok kin =>
    match pySubscript kin "data" with
    | .error f => ([], 0, some f)
    | .ok (.str s) =>
      match b64decode s with
      | none => ([], 0, some Fault.binasciiError)
      | some payload =>
        ((_process_record libs env ctx payload ext).1, 1,
         (_process_record libs env ctx payload ext).2)
    | .ok _ => ([], 0, some (Fault.typeError "b64decode expects a string"))

/-- The for-loop over the Records list: records are processed
sequentially, in order; an unhandled fault aborts the rest of the batch.
`ext i` supplies the external outcomes consumed by the i-th record. -/
def processRecords (libs : Libs) (env : Env) (ctx : Context) :
    List Json → (Nat → Ext) → List Effect × Nat × Option Fault
  | [], _ => ([], 0, none)
  | r :: rs, ext =>
    match recordStep libs env ctx r (ext 0) with
    | (es, n, some f) => (es, n, some f)
    | (es, n, none) =>
      (es ++ (processRecords libs env ctx rs (fun i => ext (i + 1))).1,
       n + (processRecords libs env ctx rs (fun i => ext (i + 1))).2.1,
       (processRecords libs env ctx rs (fun i => ext (i + 1))).2.2)

/-- The function lambda_handler: loop over the Records list of the event and return the summary
string. The Kinesis trigger delivers `Records` as a list; any other shape
is modelled as a TypeError. The middle component counts `_process_record`
invocations across the batch. -/
def lambda_handler (libs : Libs) (env : Env) (event : Json) (ctx : Context)
    (ext : Nat → Ext) : List Effect × Nat × Except Fault String :=
  match pySubscript event "Records" with
  | .error f => ([], 0, .error f)
  | .ok (.arr records) =>
    match processRecords libs env ctx records ext with
    | (es, n, some f) => (es, n, .error f)
    | (es, n, none) =>
      (es, n, .ok ("Successfully processed " ++ toString records.length ++ " records."))
  | .ok _ => ([], 0, .error (Fault.typeError "event Records is not a list"))

/-- Effect classifiers used to state the claims. -/
def isHttpPost : Effect → Bool
  | .httpPost _ _ _ => true
  | _ => false

/-- Is the effect a structured-log write. -/
def isLogWrite : Effect → Bool
  | .logStruct _ _ => true
  | _ => false

/-! Concrete fixtures used by witnesses and counterexamples. -/

/-- A concrete configuration. -/
def env0 : Env := ⟨"http://jaeger.example/api/traces", "http://stackdriver.example/traces", "us-east-1"⟩

/-- A concrete execution context. -/
def ctx0 : Context := ⟨"req-123"⟩

/-- A successful HTTP response. -/
def respOk : Response := ⟨true, ""⟩

/-- A failed HTTP response. -/
def respFail : Response := ⟨false, "bad"⟩

/-- External outcomes where every call succeeds. -/
def ext0 : Ext := ⟨respOk, respOk, none⟩

/-- Per-record outcomes where every call succeeds. -/
def exts0 : Nat → Ext := fun _ => ext0

/-- A JSON parser that fails on every input (e.g. non-JSON bytes). -/
def libsNone : Libs := ⟨fun _ => none, fun _ => none⟩

/-- A parser producing an envelope whose inner payload has a trace key. -/
def libsTrace : Libs :=
  ⟨fun _ => some (Json.obj [("log", Json.str "x")]),
   fun _ => some (Json.obj [("trace", Json.str "AAA=")])⟩

/-- A parser producing an envelope whose inner payload is a log object. -/
def libsLog : Libs :=
  ⟨fun _ => some (Json.obj [("log", Json.str "x")]),
   fun _ => some (Json.obj [("message", Json.str "hello")])⟩

/-- A parser whose inner payload is the JSON number 5. -/
def libs9 : Libs :=
  ⟨fun _ => some (Json.obj [("log", Json.str "5")]),
   fun _ => some (Json.num 5)⟩

/-- A parser whose inner payload is a JSON string. -/
def libsStr : Libs :=
  ⟨fun _ => some (Json.obj [("log", Json.str "x")]),
   fun _ => some (Json.str "hello")⟩

/-- A well-formed Kinesis record with base64 data. -/
def goodRec : Json := Json.obj [("kinesis", Json.obj [("data", Json.str "AAAA")])]

/-- Per-record outcomes where every structured-log write raises. -/
def extFail : Nat → Ext := fun _ => ⟨respOk, respOk, some "sink down"⟩

/-- External outcomes where both HTTP POSTs return a non-ok status. -/
def extBadResp : Ext := ⟨respFail, respFail, none⟩

/-- C1: a record whose inner payload contains a trace key produces exactly
two outbound HTTP POSTs, one to the trace-collector URL and one to the
log-aggregation URL, each with body equal to the base64-decoding of the
trace value and each with the single header
Content-Type: application/x-thrift, and no structured-log write. -/
theorem claim1_trace_two_posts (libs : Libs) (env : Env) (ctx : Context) (x : Ext)
    (payload : List Nat) (pj : Json) (s : String) (log : Json) (t : String) (data : List Nat)
    (h1 : libs.json_loads_bytes payload = some pj)
    (h2 : pyGet pj "log" = .ok (some (.str s)))
    (h3 : pyFalsy (.str s) = false)
    (h4 : libs.json_loads_str s = some log)
    (h5 : pyIn log "trace" = .ok true)
    (h6 : pySubscript log "trace" = .ok (.str t))
    (h7 : b64decode t = some data) :
    (_process_record libs env ctx payload x).1.filter isHttpPost =
      [Effect.httpPost env.JAEGER_COLLECTOR_URL [("Content-Type", "application/x-thrift")] data,
       Effect.httpPost env.STACKDRIVER_COLLECTOR_URL [("Content-Type", "application/x-thrift")] data] ∧
    (_process_record libs env ctx payload x).1.filter isLogWrite = [] ∧
    (_process_record libs env ctx payload x).2 = none := by
  have hrec : _process_record libs env ctx payload x = _process_trace env (.str t) x := by
    simp only [_process_record, h1, h2, h3, h4, h5, h6, Bool.false_eq_true, if_false]
  rw [hrec]
  simp only [_process_trace, h7, thrift_headers]
  rcases x with ⟨⟨jok, jc⟩, ⟨sok, sc⟩, sf⟩
  cases jok <;> cases sok <;>
    simp [isHttpPost, isLogWrite]

/-- Witness for C1 at a concrete trace record: the inner payload is
an object with a trace key holding the base64 string AAA=, which decodes
to the two zero bytes. -/
theorem claim1_witness :
    b64decode "AAA=" = some [0, 0] ∧
    ((_process_record libsTrace env0 ctx0 [1] ext0).1.filter isHttpPost =
      [Effect.httpPost env0.JAEGER_COLLECTOR_URL [("Content-Type", "application/x-thrift")] [0, 0],
       Effect.httpPost env0.STACKDRIVER_COLLECTOR_URL [("Content-Type", "application/x-thrift")] [0, 0]] ∧
     (_process_record libsTrace env0 ctx0 [1] ext0).1.filter isLogWrite = [] ∧
     (_process_record libsTrace env0 ctx0 [1] ext0).2 = none) :=
  ⟨rfl, claim1_trace_two_posts libsTrace env0 ctx0 ext0 [1]
    (Json.obj [("log", Json.str "x")]) "x" (Json.obj [("trace", Json.str "AAA=")]) "AAA=" [0, 0]
    rfl rfl rfl rfl rfl rfl rfl⟩

/-- C2: a record whose inner payload lacks a trace key produces exactly one
structured-log write of the full inner payload and one standard-output
write of it, and no HTTP POSTs; the resource descriptor has type
generic_task and labels namespace=default, job=router, task_id equal to
the request identifier and location equal to aws: plus the region. -/
theorem claim2_log_write (libs : Libs) (env : Env) (ctx : Context) (x : Ext)
    (payload : List Nat) (pj : Json) (s : String) (log : Json)
    (h1 : libs.json_loads_bytes payload = some pj)
    (h2 : pyGet pj "log" = .ok (some (.str s)))
    (h3 : pyFalsy (.str s) = false)
    (h4 : libs.json_loads_str s = some log)
    (h5 : pyIn log "trace" = .ok false)
    (h6 : x.sinkFault = none) :
    _process_record libs env ctx payload x =
      ([Effect.logStruct log
          ⟨"generic_task",
           [("location", "aws:" ++ env.AWS_REGION), ("namespace", "default"),
            ("job", "router"), ("task_id", ctx.aws_request_id)]⟩,
        Effect.printJson log], none) := by
  simp only [_process_record, h1, h2, h3, h4, h5, Bool.false_eq_true, if_false,
    _process_log, h6, REGION]

/-- Witness for C2 at a concrete log record with inner payload
an object mapping message to hello. -/
theorem claim2_witness :
    pyIn (Json.obj [("message", Json.str "hello")]) "trace" = .ok false ∧
    _process_record libsLog env0 ctx0 [1] ext0 =
      ([Effect.logStruct (Json.obj [("message", Json.str "hello")])
          ⟨"generic_task",
           [("location", "aws:" ++ env0.AWS_REGION), ("namespace", "default"),
            ("job", "router"), ("task_id", ctx0.aws_request_id)]⟩,
        Effect.printJson (Json.obj [("message", Json.str "hello")])], none) :=
  ⟨rfl, claim2_log_write libsLog env0 ctx0 ext0 [1]
    (Json.obj [("log", Json.str "x")]) "x" (Json.obj [("message", Json.str "hello")])
    rfl rfl rfl rfl rfl rfl⟩

/-- C3: a record whose decoded bytes are not valid JSON, or whose log field
is absent or falsy, or whose log string is not valid JSON, is skipped
silently: no effects, no fault, and processing continues with the next
record (the returned fault component is none). -/
theorem claim3_skip_malformed (libs : Libs) (env : Env) (ctx : Context) (x : Ext)
    (payload : List Nat)
    (h : libs.json_loads_bytes payload = none
      ∨ (∃ pj, libs.json_loads_bytes payload = some pj ∧ pyGet pj "log" = .ok none)
      ∨ (∃ pj v, libs.json_loads_bytes payload = some pj ∧ pyGet pj "log" = .ok (some v) ∧
          pyFalsy v = true)
      ∨ (∃ pj s, libs.json_loads_bytes payload = some pj ∧
          pyGet pj "log" = .ok (some (.str s)) ∧ pyFalsy (.str s) = false ∧
          libs.json_loads_str s = none)) :
    _process_record libs env ctx payload x = ([], none) := by
  rcases h with h1 | ⟨pj, h1, h2⟩ | ⟨pj, v, h1, h2, h3⟩ | ⟨pj, s, h1, h2, h3, h4⟩
  · simp only [_process_record, h1]
  · simp only [_process_record, h1, h2]
  · simp only [_process_record, h1, h2, h3, if_true]
  · simp only [_process_record, h1, h2, h3, Bool.false_eq_true, if_false, h4]

/-- Witness for C3: a record whose bytes do not parse as JSON is skipped. -/
theorem claim3_witness :
    libsNone.json_loads_bytes [1] = none ∧
    _process_record libsNone env0 ctx0 [1] ext0 = ([], none) :=
  ⟨rfl, claim3_skip_malformed libsNone env0 ctx0 ext0 [1] (Or.inl rfl)⟩

/-- Specification helper for the ordering claim: the effect trace of each
record of the batch, processed independently, listed in input order. -/
def perRecordTraces (libs : Libs) (env : Env) (ctx : Context) :
    List Json → (Nat → Ext) → List (List Effect)
  | [], _ => []
  | r :: rs, ext =>
    (recordStep libs env ctx r (ext 0)).1 ::
      perRecordTraces libs env ctx rs (fun i => ext (i + 1))

/-- A record step that does not fault has invoked `_process_record`
exactly once. -/
theorem recordStep_count_of_ok (libs : Libs) (env : Env) (ctx : Context)
    (r : Json) (x : Ext) (h : (recordStep libs env ctx r x).2.2 = none) :
    (recordStep libs env ctx r x).2.1 = 1 := by
  rcases hk : pySubscript r "kinesis" with f | kin
  · simp [recordStep, hk] at h
  · rcases hd : pySubscript kin "data" with f | d
    · simp [recordStep, hk, hd] at h
    · rcases d with _ | b | n | s | xs | kvs
      case str =>
        rcases hb : b64decode s with _ | payload
        · simp [recordStep, hk, hd, hb] at h
        · simp [recordStep, hk, hd, hb]
      all_goals simp [recordStep, hk, hd] at h

/-- C4 as stated is false: for a batch holding one record that lacks the
kinesis field the handler faults before any per-record processing, so
per-record processing runs 0 times, not once per record. -/
theorem claim4_counterexample :
    processRecords libsNone env0 ctx0 [Json.obj []] exts0 =
      ([], 0, some (Fault.keyError "kinesis")) ∧
    (0 : Nat) ≠ [Json.obj ([] : List (String × Json))].length :=
  ⟨rfl, by decide⟩

/-- C4 amended: on every batch whose processing raises no unhandled fault,
per-record processing is invoked exactly once per record, and the batch
effect trace is the concatenation, in input order, of the individual
per-record effect traces. -/
theorem claim4_amended (libs : Libs) (env : Env) (ctx : Context) :
    ∀ (records : List Json) (ext : Nat → Ext),
    (processRecords libs env ctx records ext).2.2 = none →
    (processRecords libs env ctx records ext).2.1 = records.length ∧
    (processRecords libs env ctx records ext).1 =
      (perRecordTraces libs env ctx records ext).flatten := by
  intro records
  induction records with
  | nil => intro ext h; simp [processRecords, perRecordTraces]
  | cons r rs ih =>
    intro ext h
    rcases hstep : recordStep libs env ctx r (ext 0) with ⟨es, n, f⟩
    rcases f with _ | f
    · have hn : n = 1 := by
        have := recordStep_count_of_ok libs env ctx r (ext 0)
        rw [hstep] at this; exact this rfl
      have hrest := ih (fun i => ext (i + 1))
      simp only [processRecords, hstep] at h ⊢
      obtain ⟨hc, he⟩ := hrest h
      constructor
      · simp only [List.length_cons, hn, hc]
        omega
      · simp [perRecordTraces, hstep, he]
    · simp only [processRecords, hstep] at h
      simp at h

/-- Witness for C4 amended: a batch of two well-formed records that are
both skipped at the JSON stage still invokes per-record processing twice,
in order. -/
theorem claim4_witness :
    (processRecords libsNone env0 ctx0 [goodRec, goodRec] exts0).2.2 = none ∧
    (processRecords libsNone env0 ctx0 [goodRec, goodRec] exts0).2.1 =
      [goodRec, goodRec].length ∧
    (processRecords libsNone env0 ctx0 [goodRec, goodRec] exts0).1 =
      (perRecordTraces libsNone env0 ctx0 [goodRec, goodRec] exts0).flatten :=
  ⟨rfl, claim4_amended libsNone env0 ctx0 [goodRec, goodRec] exts0 rfl⟩

/-- C5: whenever the handler returns normally, the summary string reports a
count equal to the input batch length, independently of how many records
were silently skipped. -/
theorem claim5_summary_count (libs : Libs) (env : Env) (ctx : Context)
    (records : List Json) (ext : Nat → Ext)
    (h : (processRecords libs env ctx records ext).2.2 = none) :
    (lambda_handler libs env (Json.obj [("Records", Json.arr records)]) ctx ext).2.2 =
      .ok ("Successfully processed " ++ toString records.length ++ " records.") := by
  rcases hp : processRecords libs env ctx records ext with ⟨es, n, f⟩
  rw [hp] at h
  simp only at h
  subst h
  simp [lambda_handler, pySubscript, List.lookup, hp]

/-- Witness for C5: a batch with one record whose bytes are not valid JSON
makes no outbound call, yet the summary still reports 1 record. -/
theorem claim5_witness :
    (processRecords libsNone env0 ctx0 [goodRec] exts0) = ([], 1, none) ∧
    (lambda_handler libsNone env0 (Json.obj [("Records", Json.arr [goodRec])]) ctx0 exts0).2.2 =
      .ok "Successfully processed 1 records." :=
  ⟨rfl, claim5_summary_count libsNone env0 ctx0 [goodRec] exts0 rfl⟩

/-- C6 as stated is false: when the structured-log write of the first
record raises, the second record of the batch is never processed (the
invocation count stays 1 for a batch of length 2), so the failure does not
affect that single record only. -/
theorem claim6_counterexample :
    processRecords libsLog env0 ctx0 [goodRec, goodRec] extFail =
      ([], 1, some (Fault.sinkError "sink down")) ∧
    (1 : Nat) ≠ [goodRec, goodRec].length :=
  ⟨rfl, by decide⟩

/-- C6 amended: a failing structured-log write propagates as an unhandled
fault that aborts the batch: the faulting record contributes its effects
so far and every subsequent record of the batch is left unprocessed. -/
theorem claim6_amended (libs : Libs) (env : Env) (ctx : Context)
    (ext : Nat → Ext) (r : Json) (rs : List Json)
    (es : List Effect) (n : Nat) (m : String)
    (h : recordStep libs env ctx r (ext 0) = (es, n, some (Fault.sinkError m))) :
    processRecords libs env ctx (r :: rs) ext = (es, n, some (Fault.sinkError m)) := by
  simp [processRecords, h]

/-- Witness for C6 amended at a concrete two-record batch whose first
record is a log record and whose sink raises. -/
theorem claim6_witness :
    recordStep libsLog env0 ctx0 goodRec (extFail 0) =
      ([], 1, some (Fault.sinkError "sink down")) ∧
    processRecords libsLog env0 ctx0 [goodRec, goodRec] extFail =
      ([], 1, some (Fault.sinkError "sink down")) :=
  ⟨rfl, claim6_amended libsLog env0 ctx0 extFail goodRec [goodRec] [] 1 "sink down" rfl⟩

/-- C7: on a trace record both sends are attempted unconditionally: the
POSTs to the Jaeger and Stackdriver collectors both appear whatever the
response statuses; each non-ok response adds a diagnostic print holding
the response body; no fault is raised, so the remaining records of the
batch are unaffected. -/
theorem claim7_both_posts (env : Env) (x : Ext) (t : String) (data : List Nat)
    (h : b64decode t = some data) :
    (_process_trace env (.str t) x).1.filter isHttpPost =
      [Effect.httpPost env.JAEGER_COLLECTOR_URL [("Content-Type", "application/x-thrift")] data,
       Effect.httpPost env.STACKDRIVER_COLLECTOR_URL [("Content-Type", "application/x-thrift")] data] ∧
    (x.jaegerResp.ok = false →
      Effect.printStr ("Failed to POST span to Jaeger: " ++ x.jaegerResp.content) ∈
        (_process_trace env (.str t) x).1) ∧
    (x.stackdriverResp.ok = false →
      Effect.printStr ("Failed to POST span to Stackdriver: " ++ x.stackdriverResp.content) ∈
        (_process_trace env (.str t) x).1) ∧
    (_process_trace env (.str t) x).2 = none := by
  rcases x with ⟨⟨jok, jc⟩, ⟨sok, sc⟩, sf⟩
  cases jok <;> cases sok <;>
    simp [_process_trace, h, thrift_headers, isHttpPost]

/-- Witness for C7: both collectors answer with a non-ok response; the two
POSTs still happen and each failure is printed with the response body. -/
theorem claim7_witness :
    b64decode "AAA=" = some [0, 0] ∧
    ((_process_trace env0 (.str "AAA=") extBadResp).1.filter isHttpPost =
      [Effect.httpPost env0.JAEGER_COLLECTOR_URL [("Content-Type", "application/x-thrift")] [0, 0],
       Effect.httpPost env0.STACKDRIVER_COLLECTOR_URL [("Content-Type", "application/x-thrift")] [0, 0]] ∧
     (extBadResp.jaegerResp.ok = false →
       Effect.printStr ("Failed to POST span to Jaeger: " ++ extBadResp.jaegerResp.content) ∈
         (_process_trace env0 (.str "AAA=") extBadResp).1) ∧
     (extBadResp.stackdriverResp.ok = false →
       Effect.printStr ("Failed to POST span to Stackdriver: " ++ extBadResp.stackdriverResp.content) ∈
         (_process_trace env0 (.str "AAA=") extBadResp).1) ∧
     (_process_trace env0 (.str "AAA=") extBadResp).2 = none) :=
  ⟨rfl, claim7_both_posts env0 extBadResp "AAA=" [0, 0] rfl⟩

/-- Decoding cannot fail on a structurally valid base64 character list. -/
theorem b64ValidChars_decode_isSome :
    ∀ l : List Char, b64ValidChars l = true → (b64DecodeChars l).isSome = true
  | [] => fun _ => rfl
  | [_] => fun h => by simp [b64ValidChars] at h
  | [_, _] => fun h => by simp [b64ValidChars] at h
  | [_, _, _] => fun h => by simp [b64ValidChars] at h
  | a :: b :: c :: d :: rest => fun h => by
    rcases hva : b64Val a with _ | x
    · simp [b64ValidChars, hva] at h
    rcases hvb : b64Val b with _ | y
    · simp [b64ValidChars, hvb] at h
    by_cases hc : (c == '=') = true
    · simp [b64ValidChars, hva, hvb, hc] at h
      obtain ⟨hde, hrest⟩ := h
      subst hde hrest
      simp [b64DecodeChars, hva, hvb, hc]
    · rw [Bool.not_eq_true] at hc
      simp only [b64ValidChars, hva, hvb, hc, Option.isSome_some, Bool.true_and,
        Bool.if_false_left, Bool.and_eq_true, Bool.not_eq_eq_eq_not, Bool.not_true] at h
      rcases hvc : b64Val c with _ | z
      · rw [hvc] at h; simp at h
      rw [hvc] at h
      by_cases hd : (d == '=') = true
      · simp [hd] at h
        subst h
        simp [b64DecodeChars, hva, hvb, hc, hvc, hd]
      · rw [Bool.not_eq_true] at hd
        simp only [hd, Option.isSome_some, Bool.true_and, Bool.false_eq_true, if_false,
          Bool.and_eq_true] at h
        rcases hvd : b64Val d with _ | w
        · rw [hvd] at h; simp at h
        have htl := b64ValidChars_decode_isSome rest h.2
        rcases htlx : b64DecodeChars rest with _ | tl
        · rw [htlx] at htl; simp at htl
        simp [b64DecodeChars, hva, hvb, hc, hvc, hd, hvd, htlx]

/-- C8: when the raw record data is a valid base64 encoding, the decode
step cannot fail: it yields bytes, contributes no effect of its own, and
the loop body reduces to the `_process_record` call on those bytes. -/
theorem claim8_valid_b64 (libs : Libs) (env : Env) (ctx : Context)
    (r kin : Json) (s : String) (x : Ext)
    (h1 : pySubscript r "kinesis" = .ok kin)
    (h2 : pySubscript kin "data" = .ok (.str s))
    (h3 : isValidB64 s = true) :
    ∃ bs, b64decode s = some bs ∧
      recordStep libs env ctx r x =
        ((_process_record libs env ctx bs x).1, 1, (_process_record libs env ctx bs x).2) := by
  rcases hbs : b64decode s with _ | bs
  · have := b64ValidChars_decode_isSome s.data h3
    rw [show b64DecodeChars s.data = b64decode s from rfl, hbs] at this
    simp at this
  · exact ⟨bs, rfl, by simp [recordStep, h1, h2, hbs]⟩

/-- Witness for C8 on a record whose data field holds the valid base64
string AAAA. -/
theorem claim8_witness :
    isValidB64 "AAAA" = true ∧
    (∃ bs, b64decode "AAAA" = some bs ∧
      recordStep libsNone env0 ctx0 goodRec ext0 =
        ((_process_record libsNone env0 ctx0 bs ext0).1, 1,
         (_process_record libsNone env0 ctx0 bs ext0).2)) :=
  ⟨rfl, claim8_valid_b64 libsNone env0 ctx0 goodRec
    (Json.obj [("data", Json.str "AAAA")]) "AAAA" ext0 rfl rfl rfl⟩

/-- C9: an inner payload that is the JSON number 5 makes the membership
test raise a TypeError that escapes and aborts the rest of the batch
(second record of the two-record batch left unprocessed), whereas an
inner payload that is a JSON string without the substring trace is
classified as a log record and sent to the structured-log sink. -/
theorem claim9_classification (libs : Libs) (env : Env) (ctx : Context) (x : Ext)
    (exts : Nat → Ext) (payload : List Nat) (pj : Json) (s t : String)
    (h1 : libs.json_loads_bytes payload = some pj)
    (h2 : pyGet pj "log" = .ok (some (.str s)))
    (h3 : pyFalsy (.str s) = false)
    (h4 : libs.json_loads_str s = some (.str t))
    (h5 : subIn "trace".data t.data = false)
    (h6 : x.sinkFault = none) :
    processRecords libs9 env ctx [goodRec, goodRec] exts =
      ([], 1, some (Fault.typeError "argument is not iterable")) ∧
    _process_record libs env ctx payload x =
      ([Effect.logStruct (.str t)
          ⟨"generic_task",
           [("location", "aws:" ++ env.AWS_REGION), ("namespace", "default"),
            ("job", "router"), ("task_id", ctx.aws_request_id)]⟩,
        Effect.printJson (.str t)], none) := by
  constructor
  · rfl
  · simp only [_process_record, h1, h2, h3, Bool.false_eq_true, if_false, h4, pyIn, h5,
      _process_log, h6, REGION]

/-- Witness for C9: the inner payload is the JSON string hello, which does
not contain the substring trace. -/
theorem claim9_witness :
    subIn "trace".data "hello".data = false ∧
    (processRecords libs9 env0 ctx0 [goodRec, goodRec] exts0 =
      ([], 1, some (Fault.typeError "argument is not iterable")) ∧
     _process_record libsStr env0 ctx0 [1] ext0 =
      ([Effect.logStruct (.str "hello")
          ⟨"generic_task",
           [("location", "aws:" ++ env0.AWS_REGION), ("namespace", "default"),
            ("job", "router"), ("task_id", ctx0.aws_request_id)]⟩,
        Effect.printJson (.str "hello")], none)) :=
  ⟨rfl, claim9_classification libsStr env0 ctx0 ext0 exts0 [1]
    (Json.obj [("log", Json.str "x")]) "x" "hello" rfl rfl rfl rfl rfl rfl⟩

/-- Batch processing of a fault-free prefix composes: effects and
invocation counts add up and the overall fault is the fault of the
suffix. -/
theorem processRecords_append (libs : Libs) (env : Env) (ctx : Context) :
    ∀ (pre rs : List Json) (ext : Nat → Ext),
    (processRecords libs env ctx pre ext).2.2 = none →
    processRecords libs env ctx (pre ++ rs) ext =
      ((processRecords libs env ctx pre ext).1 ++
         (processRecords libs env ctx rs (fun i => ext (i + pre.length))).1,
       (processRecords libs env ctx pre ext).2.1 +
         (processRecords libs env ctx rs (fun i => ext (i + pre.length))).2.1,
       (processRecords libs env ctx rs (fun i => ext (i + pre.length))).2.2) := by
  intro pre
  induction pre with
  | nil =>
    intro rs ext h
    simp [processRecords]
  | cons r pre ih =>
    intro rs ext h
    rcases hstep : recordStep libs env ctx r (ext 0) with ⟨es, n, f⟩
    rcases f with _ | f
    · simp only [List.cons_append, processRecords, hstep, List.append_eq] at h ⊢
      rw [ih rs (fun i => ext (i + 1)) h]
      simp [List.append_assoc, Nat.add_assoc]
    · simp only [processRecords, hstep] at h
      simp at h

/-- C10: a batch whose record lacks the nested kinesis or data field makes
the handler raise a KeyError before that record is decoded or processed:
the batch aborts with only the effects and invocation count of the
preceding records, and the silent-skip policy never applies. -/
theorem claim10_missing_fields (libs : Libs) (env : Env) (ctx : Context)
    (ext : Nat → Ext) (pre rest : List Json) (kvs kvs2 : List (String × Json))
    (hpre : (processRecords libs env ctx pre ext).2.2 = none)
    (hk : kvs.lookup "kinesis" = none)
    (hd : kvs2.lookup "data" = none) :
    lambda_handler libs env
        (Json.obj [("Records", Json.arr (pre ++ Json.obj kvs :: rest))]) ctx ext =
      ((processRecords libs env ctx pre ext).1,
       (processRecords libs env ctx pre ext).2.1,
       .error (Fault.keyError "kinesis")) ∧
    lambda_handler libs env
        (Json.obj [("Records", Json.arr (pre ++ Json.obj [("kinesis", Json.obj kvs2)] :: rest))]) ctx ext =
      ((processRecords libs env ctx pre ext).1,
       (processRecords libs env ctx pre ext).2.1,
       .error (Fault.keyError "data")) := by
  constructor
  · have happ := processRecords_append libs env ctx pre (Json.obj kvs :: rest) ext hpre
    have hbad : processRecords libs env ctx (Json.obj kvs :: rest)
        (fun i => ext (i + pre.length)) = ([], 0, some (Fault.keyError "kinesis")) := by
      simp [processRecords, recordStep, pySubscript, hk]
    rw [hbad] at happ
    simp [lambda_handler, pySubscript, List.lookup, happ]
  · have happ := processRecords_append libs env ctx pre
      (Json.obj [("kinesis", Json.obj kvs2)] :: rest) ext hpre
    have hbad : processRecords libs env ctx (Json.obj [("kinesis", Json.obj kvs2)] :: rest)
        (fun i => ext (i + pre.length)) = ([], 0, some (Fault.keyError "data")) := by
      simp [processRecords, recordStep, pySubscript, List.lookup, hd]
    rw [hbad] at happ
    simp [lambda_handler, pySubscript, List.lookup, happ]

/-- Witness for C10: singleton batches whose only record is an empty
object, or an object whose kinesis field is an empty object. -/
theorem claim10_witness :
    lambda_handler libsNone env0
        (Json.obj [("Records", Json.arr [Json.obj []])]) ctx0 exts0 =
      ([], 0, .error (Fault.keyError "kinesis")) ∧
    lambda_handler libsNone env0
        (Json.obj [("Records", Json.arr [Json.obj [("kinesis", Json.obj [])]])]) ctx0 exts0 =
      ([], 0, .error (Fault.keyError "data")) :=
  claim10_missing_fields libsNone env0 ctx0 exts0 [] [] [] [] rfl rfl rfl

end Router
